import Mathlib

/-!
# Verification of `weekly_report.py`

A shallow embedding of the weekly stock-report script.  Dates are modelled
as day numbers (`ℤ`): day 0 is a Monday, so `weekday d = d % 7` matches
Python's `date.weekday()` (0 = Monday … 6 = Sunday).  Closing prices are
modelled as `ℚ`.  The market-data provider (`yf.download`) and the
filesystem (`os.path.exists`) are oracles passed as parameters.
-/

namespace WeeklyReport

/-- Python `date.weekday()`: 0 = Monday … 6 = Sunday, for a date given as a
day number where day 0 is a Monday. -/
def weekday (d : ℤ) : ℤ := d % 7

/-- `TICKER_MAP`: symbol → display name. -/
def TICKER_MAP : List (String × String) :=
  [("GD.AT", "Γενικός Δείκτης"), ("HELPE.AT", "Ελληνικά Πετρέλαια")]

/-- `TICKER_MAP[ticker_symbol]` (the script only indexes with present keys;
we return the symbol itself on a miss, as `TICKER_MAP.get(t, t)` does at the
warning site). -/
def display_name (ticker : String) : String :=
  (TICKER_MAP.find? (fun p => p.1 == ticker)).elim ticker Prod.snd

/-- `GREEK_DAYS.get(dt.weekday(), "")`: the Greek weekday name for
Monday–Friday, `""` for Saturday/Sunday. -/
def greek_day_name (dt : ℤ) : String :=
  if weekday dt = 0 then "Δευτέρα"
  else if weekday dt = 1 then "Τρίτη"
  else if weekday dt = 2 then "Τετάρτη"
  else if weekday dt = 3 then "Πέμπτη"
  else if weekday dt = 4 then "Παρασκευή"
  else ""

/-- `last_monday = now - timedelta(days=now.weekday() + 7)`. -/
def last_monday (now : ℤ) : ℤ := now - (weekday now + 7)

/-- `last_saturday = last_monday + timedelta(days=6)`. -/
def last_saturday (now : ℤ) : ℤ := last_monday now + 6

/-- `start = last_monday.date()`: the (inclusive) start of the
`yf.download` request window. -/
def fetch_start (now : ℤ) : ℤ := last_monday now

/-- `end = (last_saturday + timedelta(days=1)).date()`: the (exclusive) end
of the `yf.download` request window. -/
def fetch_end (now : ℤ) : ℤ := last_saturday now + 1

/-- One row of the intermediate frame built at lines 50–56: date,
Greek day name (`Ημέρα`), closing price. -/
structure Row where
  date : ℤ
  day : String
  close : ℚ
deriving Repr, DecidableEq

/-- Lines 50–56: build a row from one `(date, close)` pair of the provider
response. -/
def mkRow (p : ℤ × ℚ) : Row :=
  { date := p.1, day := greek_day_name p.1, close := p.2 }

/-- The list of rows built from the provider response. -/
def rowsOf (df : List (ℤ × ℚ)) : List Row := df.map mkRow

/-- Insert a row into a date-sorted list (helper for modelling
`sort_values("Ημερομηνία")`). -/
def insertByDate (r : Row) : List Row → List Row
  | [] => [r]
  | x :: xs => if r.date ≤ x.date then r :: x :: xs else x :: insertByDate r xs

/-- Sort rows by ascending date (the provider returns distinct dates, so
any sort by date gives the frame `sort_values` produces). -/
def sortByDate : List Row → List Row
  | [] => []
  | x :: xs => insertByDate x (sortByDate xs)

/-- `part = pd.DataFrame(rows).sort_values("Ημερομηνία")`. -/
def part (df : List (ℤ × ℚ)) : List Row := sortByDate (rowsOf df)

/-- `day_order = ["Δευτέρα", "Τρίτη", "Τετάρτη", "Πέμπτη", "Παρασκευή"]`. -/
def day_order : List String :=
  ["Δευτέρα", "Τρίτη", "Τετάρτη", "Πέμπτη", "Παρασκευή"]

/-- `present_days = [d for d in day_order if d in part["Ημέρα"].unique()]`;
these are exactly the columns of the rendered `report` table (lines 64–68). -/
def present_days (df : List (ℤ × ℚ)) : List String :=
  day_order.filter (fun d => (part df).any (fun r => r.day == d))

/-- `close_row = part.set_index("Ημέρα")["Close"].reindex(present_days)`:
the cell values of the table, one per present weekday. -/
def close_row (df : List (ℤ × ℚ)) : List (Option ℚ) :=
  (present_days df).map (fun d => ((part df).find? (fun r => r.day == d)).map Row.close)

/-- `last_close = part["Close"].iloc[-1]`: the close of the last row of the
date-sorted frame (`none` only for an empty frame, which the script has
already ruled out). -/
def last_close (df : List (ℤ × ℚ)) : Option ℚ :=
  ((part df).getLast?).map Row.close

/-- The closing prices plotted by the chart (line 98): `part["Close"]`,
i.e. one point per row of the sorted frame — all rows, weekends included. -/
def chart_closes (df : List (ℤ × ℚ)) : List ℚ :=
  (part df).map Row.close

/-- The x-axis labels of the chart (line 97): one `"date (day)"` label per
row of the sorted frame. -/
def chart_labels (df : List (ℤ × ℚ)) : List String :=
  (part df).map (fun r => toString r.date ++ " (" ++ r.day ++ ")")

/-- `.replace(' ', '_')`: for the single-character pattern this is exactly a
character-by-character map. -/
def replace_spaces (s : String) : String :=
  ⟨s.data.map (fun c => if c = ' ' then '_' else c)⟩

/-- Line 112: the output path,
`f"weekly_reports/{TICKER_MAP[t].replace(' ', '_')}_report.jpg"`. -/
def report_filename (ticker : String) : String :=
  "weekly_reports/" ++ replace_spaces (display_name ticker) ++ "_report.jpg"

/-- `os.path.basename`: the component after the last `/`. -/
def basename (p : String) : String :=
  ⟨p.data.foldl (fun acc c => if c = '/' then [] else acc ++ [c]) []⟩

/-- `weekly_report_with_plot`, with the provider modelled as an oracle from
the requested `[start, end)` window to the returned `(date, close)` rows:
returns the saved filename, or `none` when the response is empty. -/
def weekly_report_with_plot (ticker : String) (now : ℤ)
    (fetch : ℤ → ℤ → List (ℤ × ℚ)) : Option String :=
  let df := fetch (fetch_start now) (fetch_end now)
  if df.isEmpty then none else some (report_filename ticker)

/-- Line 47: the no-data warning is printed exactly when the provider
response for the requested window is empty. -/
def weekly_report_warns (now : ℤ) (fetch : ℤ → ℤ → List (ℤ × ℚ)) : Bool :=
  (fetch (fetch_start now) (fetch_end now)).isEmpty

/-- The observable outcome of `send_email_with_reports`: which parts were
attached (by basename), which paths drew a missing-file warning, and
whether the SMTP connection was opened and the message sent. -/
structure MailResult where
  attachments : List String
  warnings : List String
  connection_opened : Bool
  sent : Bool
deriving Repr, DecidableEq

/-- `send_email_with_reports(files)`, with `os.path.exists` as an oracle.
The loop (lines 126–134) attaches each existing path under its basename and
warns on each missing one; lines 136–140 then open the connection and send
unconditionally — there is no emptiness guard inside this function. -/
def send_email_with_reports (files : List String) (exists_on_disk : String → Bool) :
    MailResult :=
  { attachments := (files.filter exists_on_disk).map basename
    warnings := files.filter (fun f => !exists_on_disk f)
    connection_opened := true
    sent := true }

/-- The observable outcome of `main`: which fetch windows were requested,
which report files were produced, and the mail call (if any). -/
structure MainResult where
  fetches : List (String × ℤ × ℤ)
  files : List String
  mail : Option MailResult
deriving Repr, DecidableEq

/-- `main()`: gate on `now.weekday() == 5` (Saturday); run the two reports,
keep the non-`None` filenames, and call the mailer only when that list is
non-empty. -/
def main (now : ℤ) (fetch : String → ℤ → ℤ → List (ℤ × ℚ))
    (exists_on_disk : String → Bool) : MainResult :=
  if weekday now = 5 then
    let file1 := weekly_report_with_plot "GD.AT" now (fetch "GD.AT")
    let file2 := weekly_report_with_plot "HELPE.AT" now (fetch "HELPE.AT")
    let files := [file1, file2].filterMap id
    { fetches := [("GD.AT", fetch_start now, fetch_end now),
                  ("HELPE.AT", fetch_start now, fetch_end now)]
      files := files
      mail := if files.isEmpty then none
              else some (send_email_with_reports files exists_on_disk) }
  else
    { fetches := [], files := [], mail := none }

/-! ## Helper lemmas -/

theorem insertByDate_perm (r : Row) (l : List Row) :
    (insertByDate r l).Perm (r :: l) := by
  induction l with
  | nil => simp [insertByDate]
  | cons x xs ih =>
    simp only [insertByDate]
    split
    · exact List.Perm.refl _
    · exact (ih.cons x).trans (List.Perm.swap r x xs)

theorem sortByDate_perm (l : List Row) : (sortByDate l).Perm l := by
  induction l with
  | nil => simp [sortByDate]
  | cons x xs ih => exact (insertByDate_perm x (sortByDate xs)).trans (ih.cons x)

theorem part_perm (df : List (ℤ × ℚ)) : (part df).Perm (rowsOf df) :=
  sortByDate_perm _

theorem perm_any {α : Type} {l1 l2 : List α} (h : l1.Perm l2) (q : α → Bool) :
    l1.any q = l2.any q := by
  cases hb : l2.any q
  · simp only [List.any_eq_false] at hb ⊢
    exact fun x hx => hb x (h.mem_iff.mp hx)
  · simp only [List.any_eq_true] at hb ⊢
    obtain ⟨x, hx, hq⟩ := hb
    exact ⟨x, h.mem_iff.mpr hx, hq⟩

theorem part_any (df : List (ℤ × ℚ)) (q : Row → Bool) :
    (part df).any q = df.any (fun p => q (mkRow p)) := by
  rw [perm_any (part_perm df) q, rowsOf]
  induction df with
  | nil => rfl
  | cons p ps ih => simp [List.any_cons, ih]

/-- The table's columns, written directly over the raw response: a weekday
name is a column exactly when some response row carries it. -/
theorem present_days_eq (df : List (ℤ × ℚ)) :
    present_days df =
      day_order.filter (fun d => df.any (fun p => greek_day_name p.1 == d)) := by
  unfold present_days
  congr 1
  funext d
  exact part_any df (fun r => r.day == d)

/-! ## Claims -/

/-- C1 as stated is false: for a Saturday execution (`now = 5`,
`weekday 5 = 5`) the requested window is `[last_monday, last_monday + 7)`,
and the Saturday date `last_monday + 5` lies inside the requested window
while lying outside the Monday–Friday period
`[last_monday, last_monday + 4]`. -/
theorem C1_counterexample :
    weekday 5 = 5 ∧
    fetch_start 5 = last_monday 5 ∧
    fetch_end 5 = last_monday 5 + 7 ∧
    weekday (last_monday 5 + 5) = 5 ∧
    fetch_start 5 ≤ last_monday 5 + 5 ∧ last_monday 5 + 5 < fetch_end 5 ∧
    ¬ last_monday 5 + 5 ≤ last_monday 5 + 4 := by decide

/-- C1 amended: on the target weekday (Saturday) the window starts at
`last_monday = now - 12`, which is a Monday, and extends (exclusively) to
`last_monday + 7`; `last_friday = last_monday + 4` is a Friday inside the
window, but the following Saturday and Sunday are also requested. -/
theorem C1_fetch_window (now : ℤ) (h : weekday now = 5) :
    fetch_start now = last_monday now ∧
    last_monday now = now - 12 ∧
    weekday (last_monday now) = 0 ∧
    weekday (last_monday now + 4) = 4 ∧
    fetch_end now = last_monday now + 7 ∧
    fetch_start now ≤ last_monday now + 5 ∧ last_monday now + 5 < fetch_end now ∧
    fetch_start now ≤ last_monday now + 6 ∧ last_monday now + 6 < fetch_end now := by
  unfold weekday at h
  unfold fetch_start fetch_end last_saturday last_monday weekday
  omega

/-- `C1_fetch_window` at the concrete Saturday `now = 5`. -/
theorem C1_fetch_window_witness :
    fetch_start 5 = last_monday 5 ∧
    last_monday 5 = 5 - 12 ∧
    weekday (last_monday 5) = 0 ∧
    weekday (last_monday 5 + 4) = 4 ∧
    fetch_end 5 = last_monday 5 + 7 ∧
    fetch_start 5 ≤ last_monday 5 + 5 ∧ last_monday 5 + 5 < fetch_end 5 ∧
    fetch_start 5 ≤ last_monday 5 + 6 ∧ last_monday 5 + 6 < fetch_end 5 :=
  C1_fetch_window 5 (by decide)

/-- C3 as stated is false: invoked on a single path that is missing on
disk, the mailer filters the attachment list down to empty, yet it still
opens the SMTP connection and sends the (attachment-less) message. -/
theorem C3_counterexample :
    (send_email_with_reports ["weekly_reports/a_report.jpg"]
        (fun _ => false)).attachments = [] ∧
    (send_email_with_reports ["weekly_reports/a_report.jpg"]
        (fun _ => false)).connection_opened = true ∧
    (send_email_with_reports ["weekly_reports/a_report.jpg"]
        (fun _ => false)).sent = true :=
  ⟨rfl, rfl, rfl⟩

/-- C3 amended: when every path in the input list is missing on disk, the
mailer attaches nothing and warns on every path, but it still opens the
connection and sends a message — the only emptiness guard lives at the call
site in `main`, which tests the list of produced report paths, not
existence on disk. -/
theorem C3_send_always (files : List String) (ex : String → Bool)
    (hall : ∀ f ∈ files, ex f = false) :
    (send_email_with_reports files ex).attachments = [] ∧
    (send_email_with_reports files ex).warnings = files ∧
    (send_email_with_reports files ex).connection_opened = true ∧
    (send_email_with_reports files ex).sent = true := by
  refine ⟨?_, ?_, rfl, rfl⟩
  · simp only [send_email_with_reports, List.map_eq_nil_iff, List.filter_eq_nil_iff]
    intro f hf
    simp [hall f hf]
  · simp only [send_email_with_reports, List.filter_eq_self]
    intro f hf
    simp [hall f hf]

/-- `C3_send_always` on one concrete missing path. -/
theorem C3_send_always_witness :
    (send_email_with_reports ["weekly_reports/b_report.jpg"]
        (fun _ => false)).attachments = [] ∧
    (send_email_with_reports ["weekly_reports/b_report.jpg"]
        (fun _ => false)).warnings = ["weekly_reports/b_report.jpg"] ∧
    (send_email_with_reports ["weekly_reports/b_report.jpg"]
        (fun _ => false)).connection_opened = true ∧
    (send_email_with_reports ["weekly_reports/b_report.jpg"]
        (fun _ => false)).sent = true :=
  C3_send_always _ _ (fun _ _ => rfl)

/-- C5: on any day whose weekday index is not 5 (Saturday), `main`
requests no fetch window, produces no report file, and makes no mail
call — nothing happens beyond the log line. -/
theorem C5_not_saturday (now : ℤ) (fetch : String → ℤ → ℤ → List (ℤ × ℚ))
    (ex : String → Bool) (h : weekday now ≠ 5) :
    main now fetch ex = { fetches := [], files := [], mail := none } := by
  simp [main, h]

/-- `C5_not_saturday` on a concrete Monday (`now = 0`). -/
theorem C5_not_saturday_witness :
    main 0 (fun _ _ _ => []) (fun _ => false) =
      { fetches := [], files := [], mail := none } :=
  C5_not_saturday 0 (fun _ _ _ => []) (fun _ => false) (by decide)

/-- C7: for an input of two paths of which the first exists and the second
does not, the mailer attaches exactly the existing one, named by its
basename, warns on the missing one, and still sends. -/
theorem C7_mixed_paths (f1 f2 : String) (ex : String → Bool)
    (h1 : ex f1 = true) (h2 : ex f2 = false) :
    (send_email_with_reports [f1, f2] ex).attachments = [basename f1] ∧
    (send_email_with_reports [f1, f2] ex).warnings = [f2] ∧
    (send_email_with_reports [f1, f2] ex).sent = true := by
  refine ⟨?_, ?_, rfl⟩ <;>
    simp [send_email_with_reports, List.filter_cons, h1, h2]

/-- `C7_mixed_paths` on the two report paths, with only the first on
disk. -/
theorem C7_mixed_paths_witness :
    (send_email_with_reports
        ["weekly_reports/a_report.jpg", "weekly_reports/b_report.jpg"]
        (fun s => s == "weekly_reports/a_report.jpg")).attachments =
      [basename "weekly_reports/a_report.jpg"] ∧
    (send_email_with_reports
        ["weekly_reports/a_report.jpg", "weekly_reports/b_report.jpg"]
        (fun s => s == "weekly_reports/a_report.jpg")).warnings =
      ["weekly_reports/b_report.jpg"] ∧
    (send_email_with_reports
        ["weekly_reports/a_report.jpg", "weekly_reports/b_report.jpg"]
        (fun s => s == "weekly_reports/a_report.jpg")).sent = true :=
  C7_mixed_paths _ _ _ (by decide) (by decide)

/-- C8: whenever `main` produced no report files, it makes no mail call. -/
theorem C8_no_files_no_mail (now : ℤ)
    (fetch : String → ℤ → ℤ → List (ℤ × ℚ)) (ex : String → Bool)
    (h : (main now fetch ex).files = []) :
    (main now fetch ex).mail = none := by
  by_cases h5 : weekday now = 5
  · simp only [main, h5, if_pos] at h ⊢
    simp [h]
  · simp [main, h5]

/-- `C8_no_files_no_mail` on a Saturday with both provider responses
empty. -/
theorem C8_no_files_no_mail_witness :
    (main 5 (fun _ _ _ => []) (fun _ => false)).mail = none :=
  C8_no_files_no_mail 5 (fun _ _ _ => []) (fun _ => false) rfl

/-- C9: the output path is deterministic in the display name — spaces
become underscores, `_report` is appended, the extension is `.jpg` — and
the HELPE.AT display name "Ελληνικά Πετρέλαια" yields the file
"Ελληνικά_Πετρέλαια_report.jpg" (under the `weekly_reports/` directory). -/
theorem C9_filename :
    display_name "HELPE.AT" = "Ελληνικά Πετρέλαια" ∧
    report_filename "HELPE.AT" = "weekly_reports/Ελληνικά_Πετρέλαια_report.jpg" ∧
    basename (report_filename "HELPE.AT") = "Ελληνικά_Πετρέλαια_report.jpg" ∧
    replace_spaces "Ελληνικά Πετρέλαια" ++ "_report.jpg" =
      "Ελληνικά_Πετρέλαια_report.jpg" := by decide

/-- C2 as stated is false: for a response holding a Friday row (date 4,
close 10) and a Saturday row (date 5, close 11), the Saturday row is indeed
dropped from the table columns, but its close is still plotted in the chart
and it supplies the summary last-close figure. -/
theorem C2_counterexample :
    weekday 4 = 4 ∧ weekday 5 = 5 ∧
    present_days [((4:ℤ),(10:ℚ)), (5, 11)] = ["Παρασκευή"] ∧
    chart_closes [((4:ℤ),(10:ℚ)), (5, 11)] = [10, 11] ∧
    last_close [((4:ℤ),(10:ℚ)), (5, 11)] = some 11 := by decide

/-- C2 amended: a weekend row is mapped to the empty day label and so
never contributes a table column, but it is not excluded from the produced
report as a whole: its close is still among the plotted chart values. -/
theorem C2_weekend_rows (df : List (ℤ × ℚ)) (p : ℤ × ℚ) (hp : p ∈ df)
    (h5 : 5 ≤ weekday p.1) :
    greek_day_name p.1 = "" ∧
    "" ∉ present_days df ∧
    p.2 ∈ chart_closes df := by
  refine ⟨?_, ?_, ?_⟩
  · have h56 : weekday p.1 = 5 ∨ weekday p.1 = 6 := by
      unfold weekday at h5 ⊢; omega
    rcases h56 with h | h <;> simp [greek_day_name, h]
  · intro hmem
    unfold present_days at hmem
    have hdo := (List.mem_filter.mp hmem).1
    simp [day_order] at hdo
  · have h1 : mkRow p ∈ rowsOf df := List.mem_map_of_mem mkRow hp
    have h2 : mkRow p ∈ part df := (part_perm df).mem_iff.mpr h1
    exact List.mem_map_of_mem Row.close h2

/-- `C2_weekend_rows` on the concrete Friday-plus-Saturday response. -/
theorem C2_weekend_rows_witness :
    greek_day_name 5 = "" ∧
    "" ∉ present_days [((4:ℤ),(10:ℚ)), (5, 11)] ∧
    ((5:ℤ), (11:ℚ)).2 ∈ chart_closes [((4:ℤ),(10:ℚ)), (5, 11)] :=
  C2_weekend_rows [((4:ℤ),(10:ℚ)), (5, 11)] (5, 11) (by decide) (by decide)

/-- `part` of a three-row response given in ascending date order. -/
theorem part_three (d1 d2 d3 : ℤ) (c1 c2 c3 : ℚ) (h12 : d1 ≤ d2) (h23 : d2 ≤ d3) :
    part [(d1,c1),(d2,c2),(d3,c3)] =
      [mkRow (d1,c1), mkRow (d2,c2), mkRow (d3,c3)] := by
  simp [part, rowsOf, sortByDate, insertByDate, mkRow, h12, h23]

/-- C4: for a response holding exactly a Monday, the Wednesday and the
Friday of one week, the table columns are exactly Δευτέρα, Τετάρτη,
Παρασκευή in that order, and the summary figure is Friday's close. -/
theorem C4_mon_wed_fri (m : ℤ) (cm cw cf : ℚ) (hm : weekday m = 0) :
    present_days [(m,cm),(m+2,cw),(m+4,cf)] =
      ["Δευτέρα", "Τετάρτη", "Παρασκευή"] ∧
    last_close [(m,cm),(m+2,cw),(m+4,cf)] = some cf := by
  have h2 : weekday (m+2) = 2 := by unfold weekday at hm ⊢; omega
  have h4 : weekday (m+4) = 4 := by unfold weekday at hm ⊢; omega
  have hpart := part_three m (m+2) (m+4) cm cw cf (by omega) (by omega)
  have hd0 : greek_day_name m = "Δευτέρα" := by simp [greek_day_name, hm]
  have hd2 : greek_day_name (m+2) = "Τετάρτη" := by simp [greek_day_name, h2]
  have hd4 : greek_day_name (m+4) = "Παρασκευή" := by simp [greek_day_name, h4]
  constructor
  · unfold present_days day_order
    rw [hpart]
    simp [mkRow, hd0, hd2, hd4]
  · unfold last_close
    rw [hpart]
    simp [mkRow]

/-- `C4_mon_wed_fri` on the concrete week starting at day 0. -/
theorem C4_mon_wed_fri_witness :
    present_days [((0:ℤ),(1:ℚ)), (0+2, 2), (0+4, 3)] =
      ["Δευτέρα", "Τετάρτη", "Παρασκευή"] ∧
    last_close [((0:ℤ),(1:ℚ)), (0+2, 2), (0+4, 3)] = some 3 :=
  C4_mon_wed_fri 0 1 2 3 (by decide)

/-- C6: on a Saturday run where the first ticker's response is empty and
the second's is not, the first report call returns `none` after printing
the no-data warning, and `main` goes on to produce and mail the second
ticker's report. -/
theorem C6_empty_response (now : ℤ) (fetch : String → ℤ → ℤ → List (ℤ × ℚ))
    (ex : String → Bool) (h5 : weekday now = 5)
    (h1 : fetch "GD.AT" (fetch_start now) (fetch_end now) = [])
    (h2 : fetch "HELPE.AT" (fetch_start now) (fetch_end now) ≠ []) :
    weekly_report_with_plot "GD.AT" now (fetch "GD.AT") = none ∧
    weekly_report_warns now (fetch "GD.AT") = true ∧
    (main now fetch ex).files = [report_filename "HELPE.AT"] ∧
    (main now fetch ex).mail =
      some (send_email_with_reports [report_filename "HELPE.AT"] ex) := by
  have hne : (fetch "HELPE.AT" (fetch_start now) (fetch_end now)).isEmpty = false := by
    rcases hx : fetch "HELPE.AT" (fetch_start now) (fetch_end now) with _ | ⟨a, l⟩
    · exact absurd hx h2
    · rfl
  refine ⟨?_, ?_, ?_, ?_⟩ <;>
    simp [weekly_report_with_plot, weekly_report_warns, main, h5, h1, hne]

/-- `C6_empty_response` on a concrete Saturday with an empty GD.AT
response and a one-row HELPE.AT response. -/
theorem C6_empty_response_witness :
    weekly_report_with_plot "GD.AT" 5
      ((fun t s _ => if t == "HELPE.AT" then [(s, 1)] else [])
        "GD.AT") = none ∧
    weekly_report_warns 5
      ((fun t s _ => if t == "HELPE.AT" then [(s, (1:ℚ))] else [])
        "GD.AT") = true ∧
    (main 5 (fun t s _ => if t == "HELPE.AT" then [(s, 1)] else [])
        (fun _ => false)).files = [report_filename "HELPE.AT"] ∧
    (main 5 (fun t s _ => if t == "HELPE.AT" then [(s, 1)] else [])
        (fun _ => false)).mail =
      some (send_email_with_reports [report_filename "HELPE.AT"]
        (fun _ => false)) :=
  C6_empty_response 5 (fun t s _ => if t == "HELPE.AT" then [(s, 1)] else [])
    (fun _ => false) (by decide) rfl (by decide)

/-- C10: the table columns do not depend on the order of the response's
rows; they are exactly the Monday–Friday names carried by some row,
listed as a sublist of the fixed Monday-to-Friday `day_order`. -/
theorem C10_columns (df1 df2 : List (ℤ × ℚ)) (hperm : df1.Perm df2)
    (_hne : df1 ≠ []) :
    present_days df1 = present_days df2 ∧
    present_days df1 =
      day_order.filter (fun d => df1.any (fun p => greek_day_name p.1 == d)) ∧
    (present_days df1).Sublist day_order := by
  refine ⟨?_, present_days_eq df1, ?_⟩
  · rw [present_days_eq df1, present_days_eq df2]
    congr 1
    funext d
    exact perm_any hperm _
  · rw [present_days_eq df1]
    exact List.filter_sublist _

/-- `C10_columns` on a two-row response listed Wednesday-first and its
date-ascending permutation. -/
theorem C10_columns_witness :
    present_days [((2:ℤ),(5:ℚ)), (0, 3)] =
      present_days [((0:ℤ),(3:ℚ)), (2, 5)] ∧
    present_days [((2:ℤ),(5:ℚ)), (0, 3)] =
      day_order.filter
        (fun d => [((2:ℤ),(5:ℚ)), (0, 3)].any
          (fun p => greek_day_name p.1 == d)) ∧
    (present_days [((2:ℤ),(5:ℚ)), (0, 3)]).Sublist day_order :=
  C10_columns _ _ (by decide) (by decide)

end WeeklyReport
